import Mathlib

/-!
Shallow embedding of the analysis request orchestrator of
shopify-ai-product-optimizer: the fingerprinter (generateContentHash), the
in-memory result cache (getCachedAnalysis / setCachedAnalysis), the
fixed-window rate limiter (RateLimiter in rate-limiter.server.ts), the retry
loop (callOpenAIWithRetry), the fallback policy (createFallbackAnalysis,
handleAnalysisError) and the orchestrator (analyzeLLMDiscoverability).

Modelling conventions:
- JavaScript Map objects become association lists (List (String × β)) with
  Map.set semantics (update in place keeps the position, a new key is
  appended) so that insertion order — which Array.from(entries()) observes —
  is preserved.
- Date.now() becomes an explicit Nat parameter (milliseconds).
- JavaScript numbers on the score path become ℚ; Math.round is
  roundHalfUp (rounds .5 toward positive infinity, as Math.round does).
- Thrown exceptions become Except JsError values; async calls to the
  upstream API become an oracle Nat → UpstreamAttempt giving the outcome of
  each attempt.
- Array.prototype.sort with a comparator is modelled by the stable
  List.insertionSort (JavaScript sort is required to be stable); its
  in-place mutation of the callee array is made explicit by returning the
  mutated record alongside the digest in generateContentHash.
- The SHA-256 digest step of generateContentHash is not expanded: the digest
  is a fixed function of the canonically serialized content, so equality of
  the canonical forms entails equality of the digests, and no other property
  of the hash is used by any verified claim.  generateContentHash therefore
  returns the canonical form itself.
-/

/-- JavaScript error values as observed by the error classifiers: a message
string, an optional numeric HTTP status and an optional string code. -/
structure JsError where
  message : String
  status : Option Nat
  code : Option String
deriving DecidableEq

/-- Decides whether pat occurs as a prefix of l (character lists). -/
def listPrefixOf : List Char → List Char → Bool
  | [], _ => true
  | _ :: _, [] => false
  | a :: as, b :: bs => a = b && listPrefixOf as bs

/-- Decides whether pat occurs as a contiguous infix of l (character lists). -/
def listInfixOf (pat : List Char) : List Char → Bool
  | [] => listPrefixOf pat []
  | c :: cs => listPrefixOf pat (c :: cs) || listInfixOf pat cs

/-- Models JavaScript String.prototype.includes. -/
def strIncludes (s pat : String) : Bool :=
  listInfixOf pat.toList s.toList

/-- String.prototype.toLowerCase modelled on the character data
(Char.toLower agrees with it on the ASCII patterns the classifiers use). -/
def strToLower (s : String) : String :=
  String.mk (s.data.map Char.toLower)

/-- Models error.message?.toLowerCase().includes(pat). -/
def msgIncludesLC (e : JsError) (pat : String) : Bool :=
  strIncludes (strToLower e.message) pat

/-- error-handler.server.ts isRateLimitError: message contains "rate limit"
(case-insensitively), or status is 429, or code is rate_limit_exceeded. -/
def isRateLimitError (e : JsError) : Bool :=
  msgIncludesLC e "rate limit" || e.status == some 429 ||
    e.code == some "rate_limit_exceeded"

/-- error-handler.server.ts isNetworkError: message contains "network" or
"timeout" (case-insensitively), or code is ECONNRESET or ENOTFOUND. -/
def isNetworkError (e : JsError) : Bool :=
  msgIncludesLC e "network" || msgIncludesLC e "timeout" ||
    e.code == some "ECONNRESET" || e.code == some "ENOTFOUND"

/-- OpenAIError from error-handler.server.ts: prefixes the message, carries
statusCode 503 (a field distinct from the status property the classifiers
read, hence status := none here) and code OPENAI_ERROR. -/
def mkOpenAIError (msg : String) : JsError :=
  { message := "OpenAI API Error: " ++ msg, status := none,
    code := some "OPENAI_ERROR" }

/-- ValidationError from error-handler.server.ts. -/
def mkValidationError (msg : String) : JsError :=
  { message := "Validation Error: " ++ msg, status := none,
    code := some "VALIDATION_ERROR" }

/- Association-list counterparts of the JavaScript Map operations used by the
cache and the rate limiter.  Map.get scans for the key; Map.set replaces the
value in place when the key exists (keeping its position) and appends
otherwise; Map.delete removes the key.  Keys in a Map are unique, so removing
the first occurrence models delete. -/

/-- Map.get on an association list. -/
def mapGet {β : Type} : List (String × β) → String → Option β
  | [], _ => none
  | (k, v) :: rest, key => if k = key then some v else mapGet rest key

/-- Map.set on an association list: update in place or append. -/
def mapSet {β : Type} : List (String × β) → String → β → List (String × β)
  | [], key, v => [(key, v)]
  | (k, w) :: rest, key, v =>
      if k = key then (key, v) :: rest else (k, w) :: mapSet rest key v

/-- Map.delete on an association list. -/
def mapDelete {β : Type} : List (String × β) → String → List (String × β)
  | [], _ => []
  | (k, w) :: rest, key =>
      if k = key then rest else (k, w) :: mapDelete rest key

/- Rate limiter (rate-limiter.server.ts).  A RateLimitEntry stores the count
and the reset time of the current fixed window; resetTime is
windowStart + windowMs for the window that opened at windowStart. -/

/-- RateLimitEntry from rate-limiter.server.ts. -/
structure RateLimitEntry where
  count : Nat
  resetTime : Nat
deriving DecidableEq

/-- RateLimiter state: the limits map plus the two configuration constants
fixed at construction. -/
structure RateLimiter where
  limits : List (String × RateLimitEntry)
  maxRequests : Nat
  windowMs : Nat
deriving DecidableEq

/-- RateLimiter.isAllowed, with Date.now() passed explicitly.  Returns the
decision together with the mutated limiter. -/
def RateLimiter.isAllowed (rl : RateLimiter) (identifier : String) (now : Nat) :
    Bool × RateLimiter :=
  let freshEntry : RateLimitEntry := { count := 1, resetTime := now + rl.windowMs }
  match mapGet rl.limits identifier with
  | none =>
      (true, { rl with limits := mapSet rl.limits identifier freshEntry })
  | some entry =>
      if now ≥ entry.resetTime then
        (true, { rl with limits := mapSet rl.limits identifier freshEntry })
      else if entry.count ≥ rl.maxRequests then
        (false, rl)
      else
        let bumped : RateLimitEntry := { entry with count := entry.count + 1 }
        (true, { rl with limits := mapSet rl.limits identifier bumped })

/-- RateLimiter.getRemainingRequests. -/
def RateLimiter.getRemainingRequests (rl : RateLimiter) (identifier : String)
    (now : Nat) : Nat :=
  match mapGet rl.limits identifier with
  | none => rl.maxRequests
  | some entry =>
      if now ≥ entry.resetTime then rl.maxRequests
      else rl.maxRequests - entry.count

/-- RateLimiter.getResetTime. -/
def RateLimiter.getResetTime (rl : RateLimiter) (identifier : String)
    (now : Nat) : Nat :=
  match mapGet rl.limits identifier with
  | none => now
  | some entry => if now ≥ entry.resetTime then now else entry.resetTime

/-- Runs a sequence of isAllowed calls on one identifier, at the given times,
returning the list of decisions and the final limiter state. -/
def runIsAllowed (rl : RateLimiter) (identifier : String) :
    List Nat → List Bool × RateLimiter
  | [] => ([], rl)
  | t :: ts =>
      let (b, rl') := rl.isAllowed identifier t
      let (bs, rl'') := runIsAllowed rl' identifier ts
      (b :: bs, rl'')

/- Data model (app/types/analysis.ts).  Scores are JavaScript numbers on the
score path; they are modelled as ℚ (see the header). -/

/-- The five named sub-scores plus the derived composite
(ProductAnalysis.scores). -/
structure Scores where
  semanticClarity : ℚ
  intentMatching : ℚ
  featureBenefitStructure : ℚ
  naturalLanguage : ℚ
  structuredInfo : ℚ
  discoveryPotential : ℚ
deriving DecidableEq

/-- A feature-benefit pair as produced in specificContentSuggestions. -/
structure FeatureBenefit where
  feature : String
  benefit : String
deriving DecidableEq

/-- The specificContentSuggestions object of one response category; only the
fields the transformer reads are modelled, each optional as in the JSON. -/
structure SpecificSuggestions where
  titleAdditions : Option (List String)
  descriptionSentences : Option (List String)
  suggestedTags : Option (List String)
  featureBenefitPairs : Option (List FeatureBenefit)
  conversationalPhrases : Option (List String)
  specifications : Option (List String)
deriving DecidableEq

/-- One llmOptimizations row of a ProductAnalysis.  The source stores
category.specificContentSuggestions || an empty object in specificContent;
the empty object is the SpecificSuggestions record with every field
absent. -/
structure Optimization where
  category : String
  score : ℚ
  suggestions : List String
  specificContent : SpecificSuggestions
deriving DecidableEq

/-- The empty specificContent object. -/
def emptySpecific : SpecificSuggestions :=
  ⟨none, none, none, none, none, none⟩

/-- The specificEnhancements block of improvedContent. -/
structure SpecificEnhancements where
  copyPasteTitle : String
  copyPasteDescriptionSentences : List String
  suggestedTags : List String
  featureBenefitPairs : List FeatureBenefit
  specifications : List String
deriving DecidableEq

/-- The improvedContent block of a ProductAnalysis. -/
structure ImprovedContent where
  title : String
  suggestions : List String
  description : String
  descriptionSuggestions : List String
  specificEnhancements : Option SpecificEnhancements
deriving DecidableEq

/-- The reviewEnhancedRecommendations block of a ProductAnalysis. -/
structure ReviewEnhanced where
  customerLanguageSuggestions : List String
  addressedConcerns : List String
  highlightedBenefits : List String
  missingKeywords : List String
  socialProofSuggestions : List String
deriving DecidableEq

/-- ProductAnalysis from app/types/analysis.ts. -/
structure ProductAnalysis where
  scores : Scores
  contentStrengths : List String
  contentGaps : List String
  llmOptimizations : List Optimization
  improvedContent : ImprovedContent
  reviewEnhancedRecommendations : Option ReviewEnhanced
deriving DecidableEq

/-- One recent review inside ReviewData. -/
structure RecentReview where
  rating : ℚ
  body : String
deriving DecidableEq

/-- ReviewData from app/types/analysis.ts (the fields that flow into the
fingerprint and the transformer). -/
structure ReviewData where
  averageRating : Option ℚ
  reviewCount : Option Nat
  recentReviews : Option (List RecentReview)
  commonPhrases : Option (List String)
  frequentComplaints : Option (List String)
  frequentPraises : Option (List String)
deriving DecidableEq

/-- A metafield key-value pair. -/
structure Metafield where
  key : String
  value : String
deriving DecidableEq

/-- ProductContent from llm-analysis.server.ts. -/
structure ProductContent where
  title : String
  description : String
  tags : List String
  vendor : String
  productType : String
  metafields : List Metafield
deriving DecidableEq

/-- ProductContentWithReviews from app/types/analysis.ts. -/
structure ProductContentWithReviews where
  title : String
  description : String
  tags : List String
  vendor : String
  productType : String
  metafields : List Metafield
  reviewData : Option ReviewData
deriving DecidableEq

/- Fingerprinter (generateContentHash). -/

/-- Lexicographic string comparison on the character data.  JavaScript
Array.prototype.sort with no comparator sorts strings by UTF-16 code units
and the source's key comparator is localeCompare; both are linear orders on
strings, and only linearity (totality, transitivity, antisymmetry) of the
comparator is used by any verified property, so the code-point lexicographic
order stands in for them. -/
def strLe (a b : String) : Prop := a.data ≤ b.data

instance : DecidableRel strLe := fun a b =>
  inferInstanceAs (Decidable (a.data ≤ b.data))

/-- product.tags.sort(): stable sort of the tags (insertionSort is stable,
as JavaScript sort is required to be). -/
def sortTags (tags : List String) : List String :=
  List.insertionSort strLe tags

/-- The metafield comparator of the source:
(a, b) => a.key.localeCompare(b.key); modelled as comparison of the keys. -/
def mfLe (a b : Metafield) : Prop := strLe a.key b.key

instance : DecidableRel mfLe := fun a b =>
  inferInstanceAs (Decidable (strLe a.key b.key))

/-- product.metafields.sort((a, b) => a.key.localeCompare(b.key)): stable
sort of the metafields by key. -/
def sortMetafields (mfs : List Metafield) : List Metafield :=
  List.insertionSort mfLe mfs

/-- The canonical serialization underlying the digest: the JSON object that
generateContentHash stringifies, field by field.  JSON.stringify and the
SHA-256 digest are fixed functions of this record, so two equal canonical
records yield equal digests (see the header). -/
structure CanonicalContent where
  title : String
  description : String
  tags : List String
  vendor : String
  productType : String
  metafields : List Metafield
  reviewData : Option ReviewData
deriving DecidableEq

/-- generateContentHash from llm-analysis.server.ts.  The calls
product.tags.sort() and product.metafields.sort(...) mutate those arrays in
place, so the function returns the canonical form (standing for the digest)
together with the record as it is left after the call. -/
def generateContentHash (product : ProductContentWithReviews) :
    CanonicalContent × ProductContentWithReviews :=
  let sortedTags := sortTags product.tags
  let sortedMfs := sortMetafields product.metafields
  (⟨product.title, product.description, sortedTags, product.vendor,
    product.productType, sortedMfs, product.reviewData⟩,
   { product with tags := sortedTags, metafields := sortedMfs })

/- Result cache (llm-analysis.server.ts). -/

/-- CACHE_EXPIRATION_MS = 24 * 60 * 60 * 1000. -/
def CACHE_EXPIRATION_MS : Nat := 24 * 60 * 60 * 1000

/-- A cache entry: analysis, timestamp, contentHash. -/
structure CacheEntry where
  analysis : ProductAnalysis
  timestamp : Nat
  contentHash : CanonicalContent
deriving DecidableEq

/-- The analysisCache map keyed by the content hash.  The key is the digest
of the canonical content; since the digest is a fixed function of the
canonical form, the canonical form itself is used as the key (see the
header). -/
abbrev Cache := List (CanonicalContent × CacheEntry)

/-- Map.get for the cache (same semantics as mapGet, keyed by canonical
content). -/
def cacheGet : Cache → CanonicalContent → Option CacheEntry
  | [], _ => none
  | (k, v) :: rest, key => if k = key then some v else cacheGet rest key

/-- Map.set for the cache. -/
def cacheSet : Cache → CanonicalContent → CacheEntry → Cache
  | [], key, v => [(key, v)]
  | (k, w) :: rest, key, v =>
      if k = key then (key, v) :: rest else (k, w) :: cacheSet rest key v

/-- Map.delete for the cache. -/
def cacheDelete : Cache → CanonicalContent → Cache
  | [], _ => []
  | (k, w) :: rest, key =>
      if k = key then rest else (k, w) :: cacheDelete rest key

/-- getCachedAnalysis, with Date.now() explicit: a missing key reports null;
an entry older than CACHE_EXPIRATION_MS is deleted and null is reported;
otherwise the stored analysis is returned.  Returns the answer together with
the possibly shrunk cache. -/
def getCachedAnalysis (cache : Cache) (contentHash : CanonicalContent)
    (now : Nat) : Option ProductAnalysis × Cache :=
  match cacheGet cache contentHash with
  | none => (none, cache)
  | some cached =>
      if now - cached.timestamp > CACHE_EXPIRATION_MS then
        (none, cacheDelete cache contentHash)
      else
        (some cached.analysis, cache)

/-- The comparator of the cleanup sort in setCachedAnalysis:
(a, b) => a[1].timestamp - b[1].timestamp, i.e. ascending timestamp. -/
def entryLe (a b : CanonicalContent × CacheEntry) : Prop :=
  a.2.timestamp ≤ b.2.timestamp

instance : DecidableRel entryLe := fun a b => by
  unfold entryLe; infer_instance

/-- setCachedAnalysis, with Date.now() explicit: stores the entry, then if
the map has grown beyond 1000 entries deletes the single entry with the
smallest timestamp (ties resolved toward the earlier position, as the stable
JavaScript sort followed by [0] does). -/
def setCachedAnalysis (cache : Cache) (contentHash : CanonicalContent)
    (analysis : ProductAnalysis) (now : Nat) : Cache :=
  let cache' := cacheSet cache contentHash
    { analysis := analysis, timestamp := now, contentHash := contentHash }
  if cache'.length > 1000 then
    match (List.insertionSort entryLe cache').head? with
    | some oldest => cacheDelete cache' oldest.1
    | none => cache'
  else
    cache'

/- Upstream response shape (openai.server.ts / transformOpenAIResponse). -/

/-- One analysis-category object of the upstream JSON response; every field
the transformer reads is optional, as in arbitrary JSON. -/
structure OAICategory where
  score : Option ℚ
  strengths : Option (List String)
  areasForImprovement : Option (List String)
  optimizationSuggestions : Option (List String)
  specificContentSuggestions : Option SpecificSuggestions
deriving DecidableEq

/-- The reviewEnhancedRecommendations object of the upstream response. -/
structure OAIReviewEnhanced where
  customerLanguageSuggestions : Option (List String)
  addressedConcerns : Option (List String)
  highlightedBenefits : Option (List String)
  missingKeywords : Option (List String)
  socialProofSuggestions : Option (List String)
deriving DecidableEq

/-- The parsed upstream JSON object: its category-shaped keys in insertion
order (iterated by Object.values / Object.entries in the transformer) and the
optional reviewEnhancedRecommendations key, which is category-free and is
read separately by the transformer. -/
structure OpenAIResponse where
  categories : List (String × OAICategory)
  reviewEnhancedRecommendations : Option OAIReviewEnhanced
deriving DecidableEq

/-- The message content of a successful completion: either well-formed JSON
that parses to an OpenAIResponse, or text on which JSON.parse throws with the
given message. -/
inductive UpstreamContent where
  | malformed (msg : String)
  | parsed (resp : OpenAIResponse)
deriving DecidableEq

/-- A completion response: response.choices[0].message.content, where none
models a null or empty content (both falsy in the source's check). -/
structure ResponseVal where
  content : Option UpstreamContent
deriving DecidableEq

deriving instance DecidableEq for Except

/-- One attempt of the upstream call as seen by the retry loop: how long the
API promise took to settle, and its outcome. -/
structure UpstreamAttempt where
  tookMs : Nat
  outcome : Except JsError ResponseVal
deriving DecidableEq

/-- The Error thrown by the 30-second timer in callOpenAIWithRetry. -/
def timeoutError : JsError :=
  { message := "Request timeout", status := none, code := none }

/-- Promise.race of the API call against the 30000 ms timer: if the API
promise has not settled before the timer fires, the race rejects with the
timeout error. -/
def effectiveOutcome (a : UpstreamAttempt) : Except JsError ResponseVal :=
  if a.tookMs ≥ 30000 then .error timeoutError else a.outcome

/-- The string interpolation of error.status in the template
API Error (status). -/
def statusString : Option Nat → String
  | some n => toString n
  | none => "undefined"

/-- The outcome of callOpenAIWithRetry: the settled result, the backoff
delays (in ms) that were awaited, and how many attempts consumed the
oracle. -/
structure RetryOutcome where
  result : Except JsError ResponseVal
  delays : List Nat
  attemptsUsed : Nat
deriving DecidableEq

/-- The body of the for-loop of callOpenAIWithRetry, from the given attempt
number on.  The loop runs while attempt <= maxRetries; fuel is the number of
iterations still permitted (maxRetries + 1 - attempt), so fuel 0 is loop
exit, where the last error is rethrown (reachable only when maxRetries is
zero; the getD default stands for the undefined JavaScript would throw
there).  A 400/401/403 status aborts at once with a wrapped OpenAIError; a
retryable error before the last attempt waits 2 ^ attempt seconds and
retries; any other failure is wrapped and thrown. -/
def callOpenAIWithRetryAux (oracle : Nat → UpstreamAttempt)
    (maxRetries : Nat) :
    Nat → Nat → Option JsError → List Nat → Nat → RetryOutcome
  | 0, _attempt, lastError, delays, used =>
      { result := .error (lastError.getD (mkOpenAIError "Unknown OpenAI error")),
        delays := delays, attemptsUsed := used }
  | fuel + 1, attempt, _lastError, delays, used =>
      match effectiveOutcome (oracle attempt) with
      | .ok v => { result := .ok v, delays := delays, attemptsUsed := used + 1 }
      | .error e =>
          if e.status == some 400 || e.status == some 401 ||
              e.status == some 403 then
            { result := .error (mkOpenAIError
                ("API Error (" ++ statusString e.status ++ ")")),
              delays := delays, attemptsUsed := used + 1 }
          else if attempt < maxRetries &&
              (isRateLimitError e || isNetworkError e) then
            callOpenAIWithRetryAux oracle maxRetries fuel (attempt + 1)
              (some e) (delays ++ [2 ^ attempt * 1000]) (used + 1)
          else
            { result := .error (mkOpenAIError
                (if e.message = "" then "Unknown OpenAI error" else e.message)),
              delays := delays, attemptsUsed := used + 1 }

/-- callOpenAIWithRetry with its default maxRetries = 3: the loop starts at
attempt 1 with maxRetries iterations permitted. -/
def callOpenAIWithRetry (oracle : Nat → UpstreamAttempt)
    (maxRetries : Nat := 3) : RetryOutcome :=
  callOpenAIWithRetryAux oracle maxRetries maxRetries 1 none [] 0

/- Transformer (transformOpenAIResponse). -/

/-- Math.round: rounds to the nearest integer, halves toward positive
infinity. -/
def roundHalfUp (q : ℚ) : ℤ := ⌊q + 1 / 2⌋

/-- openaiResponse.Name?.score || 0. -/
def categoryScore (resp : OpenAIResponse) (name : String) : ℚ :=
  match mapGet resp.categories name with
  | none => 0
  | some cat => cat.score.getD 0

/-- key.replace with the global capital-letter pattern inserting a space
before each capital, then trim. -/
def camelToReadable (s : String) : String :=
  (String.mk (s.toList.foldr
    (fun c acc => if c.isUpper then ' ' :: c :: acc else c :: acc) [])).trim

/-- Collects category.strengths across Object.values of the response. -/
def collectStrengths (resp : OpenAIResponse) : List String :=
  resp.categories.foldl (fun acc kc => acc ++ kc.2.strengths.getD []) []

/-- Collects category.areasForImprovement across Object.values. -/
def collectGaps (resp : OpenAIResponse) : List String :=
  resp.categories.foldl
    (fun acc kc => acc ++ kc.2.areasForImprovement.getD []) []

/-- Collects one field of specificContentSuggestions across
Object.values. -/
def collectSpecific {α : Type} (resp : OpenAIResponse)
    (f : SpecificSuggestions → Option (List α)) : List α :=
  resp.categories.foldl
    (fun acc kc => acc ++ (kc.2.specificContentSuggestions.bind f).getD []) []

/-- arr[0] || d of JavaScript: the default applies when the array is empty or
its first element is the empty string (both falsy). -/
def headOr (l : List String) (d : String) : String :=
  match l.head? with
  | none => d
  | some s => if s = "" then d else s

/-- The review-guidance block installed by the transformer when no review
data is available. -/
def noReviewGuidance : ReviewEnhanced :=
  { customerLanguageSuggestions :=
      ["Install Judge.me or similar review app to unlock customer language insights"],
    addressedConcerns :=
      ["Customer concerns will be identified once review data is available"],
    highlightedBenefits :=
      ["Customer-praised benefits will be highlighted when reviews are collected"],
    missingKeywords :=
      ["Customer-used keywords will be suggested after gathering review data"],
    socialProofSuggestions :=
      ["Set up Judge.me to start collecting reviews automatically",
       "Enable review request emails after purchase",
       "Display star ratings in product listings",
       "Add review widgets to product pages"] }

/-- transformOpenAIResponse from llm-analysis.server.ts. -/
def transformOpenAIResponse (resp : OpenAIResponse)
    (reviewData : Option ReviewData) : ProductAnalysis :=
  let semanticClarity := categoryScore resp "SemanticClarity"
  let intentMatching := categoryScore resp "IntentMatching"
  let featureBenefitStructure := categoryScore resp "FeatureBenefitStructure"
  let naturalLanguage := categoryScore resp "NaturalLanguageOptimization"
  let structuredInfo := categoryScore resp "StructuredInformation"
  let discoveryPotential : ℚ := (roundHalfUp
    (semanticClarity * 0.25 + intentMatching * 0.25 +
      featureBenefitStructure * 0.20 + naturalLanguage * 0.15 +
      structuredInfo * 0.15) : ℤ)
  let titleSuggestions := collectSpecific resp (·.titleAdditions)
  let descriptionSuggestions := collectSpecific resp (·.descriptionSentences)
  let tagSuggestions := collectSpecific resp (·.suggestedTags)
  let fbPairs := collectSpecific resp (·.featureBenefitPairs)
  let specs := collectSpecific resp (·.specifications)
  { scores :=
      { semanticClarity := semanticClarity, intentMatching := intentMatching,
        featureBenefitStructure := featureBenefitStructure,
        naturalLanguage := naturalLanguage, structuredInfo := structuredInfo,
        discoveryPotential := discoveryPotential },
    contentStrengths := collectStrengths resp,
    contentGaps := collectGaps resp,
    llmOptimizations := resp.categories.map (fun kc =>
      { category := camelToReadable kc.1, score := kc.2.score.getD 0,
        suggestions := kc.2.optimizationSuggestions.getD [],
        specificContent := kc.2.specificContentSuggestions.getD emptySpecific }),
    improvedContent :=
      { title := headOr titleSuggestions
          "Enhanced title suggestions would appear here",
        suggestions := titleSuggestions,
        description := headOr descriptionSuggestions
          "Enhanced description would appear here",
        descriptionSuggestions := descriptionSuggestions,
        specificEnhancements := some
          { copyPasteTitle := headOr titleSuggestions "",
            copyPasteDescriptionSentences := descriptionSuggestions,
            suggestedTags := tagSuggestions,
            featureBenefitPairs := fbPairs,
            specifications := specs } },
    reviewEnhancedRecommendations :=
      match reviewData, resp.reviewEnhancedRecommendations with
      | some _, some rer => some
          { customerLanguageSuggestions :=
              rer.customerLanguageSuggestions.getD [],
            addressedConcerns := rer.addressedConcerns.getD [],
            highlightedBenefits := rer.highlightedBenefits.getD [],
            missingKeywords := rer.missingKeywords.getD [],
            socialProofSuggestions := rer.socialProofSuggestions.getD [] }
      | some _, none => none
      | none, _ => some noReviewGuidance }

/- Fallback policy and validation (error-handler.server.ts). -/

/-- createFallbackAnalysis from error-handler.server.ts. -/
def createFallbackAnalysis (productTitle : String) : ProductAnalysis :=
  { scores :=
      { semanticClarity := 0, intentMatching := 0,
        featureBenefitStructure := 0, naturalLanguage := 0,
        structuredInfo := 0, discoveryPotential := 0 },
    contentStrengths := ["Product information is present"],
    contentGaps := ["Analysis temporarily unavailable - please try again"],
    llmOptimizations :=
      [{ category := "System Error", score := 0,
         suggestions :=
           ["Analysis service is temporarily unavailable. Please try again in a few moments."],
         specificContent := emptySpecific }],
    improvedContent :=
      { title := productTitle,
        suggestions := ["Analysis service temporarily unavailable"],
        description := "Please try analyzing this product again",
        descriptionSuggestions := ["Analysis service temporarily unavailable"],
        specificEnhancements := some
          { copyPasteTitle := productTitle,
            copyPasteDescriptionSentences := [],
            suggestedTags := [],
            featureBenefitPairs := [],
            specifications := [] } },
    reviewEnhancedRecommendations := some
      { customerLanguageSuggestions :=
          ["Analysis service temporarily unavailable"],
        addressedConcerns := ["Analysis service temporarily unavailable"],
        highlightedBenefits := ["Analysis service temporarily unavailable"],
        missingKeywords := ["Analysis service temporarily unavailable"],
        socialProofSuggestions :=
          ["Analysis service temporarily unavailable"] } }

/-- handleAnalysisError: logs and returns the fallback analysis. -/
def handleAnalysisError (_e : JsError) (productTitle : String) :
    ProductAnalysis :=
  createFallbackAnalysis productTitle

/-- validateProductData from error-handler.server.ts, on the typed
ProductContent record.  The typeof and null checks of the source cannot fire
on a well-typed record; the reachable failures are an empty (falsy) title and
an over-long title. -/
def validateProductData (product : ProductContent) : Except JsError Unit :=
  if product.title = "" then
    .error (mkValidationError "Product title is required and must be a string")
  else if product.title.length > 255 then
    .error (mkValidationError "Product title must be less than 255 characters")
  else
    .ok ()

/- Orchestrator (analyzeLLMDiscoverability). -/

/-- The session object; only its shop property is read. -/
structure Session where
  shop : Option String
deriving DecidableEq

/-- getRateLimitIdentifier: session.shop || "anonymous" (an absent or empty
shop is falsy). -/
def getRateLimitIdentifier (session : Session) : String :=
  match session.shop with
  | some sh => if sh = "" then "anonymous" else sh
  | none => "anonymous"

/-- The record returned by checkRateLimit. -/
structure RateLimitResult where
  allowed : Bool
  remaining : Nat
  resetTime : Nat
deriving DecidableEq

/-- checkRateLimit from rate-limiter.server.ts, on the given limiter
instance: isAllowed runs first (mutating the window), then the remaining
count and reset time are read from the mutated limiter. -/
def checkRateLimit (limiter : RateLimiter) (identifier : String) (now : Nat) :
    RateLimitResult × RateLimiter :=
  let (allowed, limiter') := limiter.isAllowed identifier now
  ({ allowed := allowed,
     remaining := limiter'.getRemainingRequests identifier now,
     resetTime := limiter'.getResetTime identifier now }, limiter')

/-- The process-wide state the orchestrator touches: the two rate limiter
instances and the analysis cache. -/
structure OrchState where
  openaiLimiter : RateLimiter
  bulkLimiter : RateLimiter
  cache : Cache
deriving DecidableEq

/-- The provenance flag on a returned analysis. -/
inductive CacheStatus where
  | cached
  | fresh
deriving DecidableEq

/-- The value returned by analyzeLLMDiscoverability: the analysis, the
provenance flag, and the rateLimited flag (false models the absent
property). -/
structure AnalyzeResult where
  analysis : ProductAnalysis
  cacheStatus : CacheStatus
  rateLimited : Bool
deriving DecidableEq

/-- The full observable behaviour of one analyzeLLMDiscoverability call: the
returned value, the final shared state, and three ghost observations used
only in specifications — how many attempts consumed the upstream oracle,
whether the local quota check denied the request, and which thrown error (if
any) reached the outer catch. -/
structure AnalyzeTrace where
  result : AnalyzeResult
  state : OrchState
  upstreamAttempts : Nat
  quotaDenied : Bool
  caughtError : Option JsError
deriving DecidableEq

/-- The Error created on the quota-denial path:
new Error("Rate limit exceeded"). -/
def rateLimitExceededError : JsError :=
  { message := "Rate limit exceeded", status := none, code := none }

/-- The SyntaxError thrown by JSON.parse on malformed content. -/
def jsonParseError (msg : String) : JsError :=
  { message := msg, status := none, code := none }

/-- The outer catch of analyzeLLMDiscoverability applied to a thrown error:
the fallback analysis, provenance fresh, and rateLimited exactly when the
error classifies as a rate-limit error. -/
def catchResult (e : JsError) (product : ProductContent) (st : OrchState)
    (attempts : Nat) : AnalyzeTrace :=
  { result :=
      { analysis := handleAnalysisError e product.title,
        cacheStatus := .fresh, rateLimited := isRateLimitError e },
    state := st, upstreamAttempts := attempts, quotaDenied := false,
    caughtError := some e }

/-- The pipeline after validation and quota: review fetch, fingerprint, cache
lookup, upstream call with retry, content and parse checks, transform, cache
store.  The reviewOracle is the settled value of fetchProductReviewData
(which never throws); the upstreamOracle drives callOpenAIWithRetry. -/
def analyzeAfterQuota (product : ProductContent)
    (reviewOracle : Option ReviewData)
    (upstreamOracle : Nat → UpstreamAttempt) (st : OrchState) (now : Nat) :
    AnalyzeTrace :=
  let productWithReviews : ProductContentWithReviews :=
    { title := product.title, description := product.description,
      tags := product.tags, vendor := product.vendor,
      productType := product.productType, metafields := product.metafields,
      reviewData := reviewOracle }
  let contentHash := (generateContentHash productWithReviews).1
  match getCachedAnalysis st.cache contentHash now with
  | (some cachedAnalysis, cache') =>
      { result :=
          { analysis := cachedAnalysis, cacheStatus := .cached,
            rateLimited := false },
        state := { st with cache := cache' }, upstreamAttempts := 0,
        quotaDenied := false, caughtError := none }
  | (none, cache') =>
      let st1 := { st with cache := cache' }
      let retry := callOpenAIWithRetry upstreamOracle 3
      match retry.result with
      | .error e => catchResult e product st1 retry.attemptsUsed
      | .ok resp =>
          match resp.content with
          | none =>
              catchResult (mkOpenAIError "Empty response received") product
                st1 retry.attemptsUsed
          | some (.malformed msg) =>
              catchResult (jsonParseError msg) product st1 retry.attemptsUsed
          | some (.parsed openaiResponse) =>
              let analysis :=
                transformOpenAIResponse openaiResponse reviewOracle
              let cache'' := setCachedAnalysis st1.cache contentHash analysis
                now
              { result :=
                  { analysis := analysis, cacheStatus := .fresh,
                    rateLimited := false },
                state := { st1 with cache := cache'' },
                upstreamAttempts := retry.attemptsUsed,
                quotaDenied := false, caughtError := none }

/-- analyzeLLMDiscoverability from llm-analysis.server.ts: validate, check
the quota when a session is supplied, then run the cache/upstream
pipeline.  Every Date.now() of the call is the explicit now parameter. -/
def analyzeLLMDiscoverability (product : ProductContent)
    (session : Option Session) (reviewOracle : Option ReviewData)
    (upstreamOracle : Nat → UpstreamAttempt) (st : OrchState) (now : Nat) :
    AnalyzeTrace :=
  match validateProductData product with
  | .error e =>
      { result :=
          { analysis := handleAnalysisError e product.title,
            cacheStatus := .fresh, rateLimited := isRateLimitError e },
        state := st, upstreamAttempts := 0, quotaDenied := false,
        caughtError := some e }
  | .ok _ =>
      match session with
      | some s =>
          let (rlResult, limiter') :=
            checkRateLimit st.openaiLimiter (getRateLimitIdentifier s) now
          let st1 := { st with openaiLimiter := limiter' }
          if rlResult.allowed then
            analyzeAfterQuota product reviewOracle upstreamOracle st1 now
          else
            { result :=
                { analysis :=
                    handleAnalysisError rateLimitExceededError product.title,
                  cacheStatus := .fresh, rateLimited := true },
              state := st1, upstreamAttempts := 0, quotaDenied := true,
              caughtError := none }
      | none => analyzeAfterQuota product reviewOracle upstreamOracle st now

instance : IsTotal String strLe := ⟨fun a b => le_total a.data b.data⟩

instance : IsTrans String strLe := ⟨fun _ _ _ h1 h2 => le_trans h1 h2⟩

instance : IsAntisymm String strLe :=
  ⟨fun _ _ h1 h2 => String.ext (le_antisymm h1 h2)⟩

instance : IsTotal Metafield mfLe := ⟨fun a b => le_total a.key.data b.key.data⟩

instance : IsTrans Metafield mfLe := ⟨fun _ _ _ h1 h2 => le_trans h1 h2⟩

/-- The strict key order on metafields, used to compare the two stable sorts
when keys are unique. -/
def mfLt (a b : Metafield) : Prop := a.key.data < b.key.data

instance : IsAntisymm Metafield mfLt :=
  ⟨fun _ _ h1 h2 => absurd h2 (lt_asymm h1)⟩

/-- Helper: whether an error has one of the three non-retryable client
statuses. -/
def isClientStatus (e : JsError) : Bool :=
  e.status == some 400 || e.status == some 401 || e.status == some 403

instance : IsTotal (CanonicalContent × CacheEntry) entryLe :=
  ⟨fun a b => Nat.le_total a.2.timestamp b.2.timestamp⟩

instance : IsTrans (CanonicalContent × CacheEntry) entryLe :=
  ⟨fun _ _ _ h1 h2 => Nat.le_trans h1 h2⟩

/-- The key of the i-th demonstration insert (distinct titles give distinct
canonical contents). -/
def demoKey (i : Nat) : CanonicalContent :=
  ⟨String.mk (List.replicate i 'a'), "", [], "", "", [], none⟩

/-- The analysis value stored by every demonstration insert. -/
def demoAnalysis : ProductAnalysis := createFallbackAnalysis ""

/-- The entry the i-th demonstration insert creates (timestamp i). -/
def demoEntry (i : Nat) : CacheEntry := ⟨demoAnalysis, i, demoKey i⟩

/-- The key-entry pair of the i-th demonstration insert. -/
def demoPair (i : Nat) : CanonicalContent × CacheEntry :=
  (demoKey i, demoEntry i)

/-- The cache after n demonstration inserts at times 0, 1, ... -/
def demoCache (n : Nat) : Cache :=
  (List.range n).foldl
    (fun c i => setCachedAnalysis c (demoKey i) demoAnalysis i) []

/-- The spec's composite-score invariant: the composite equals the rounded
weighted sum of the five sub-scores. -/
def scoresInvariant (s : Scores) : Prop :=
  s.discoveryPotential = ((roundHalfUp (s.semanticClarity * 0.25 +
    s.intentMatching * 0.25 + s.featureBenefitStructure * 0.20 +
    s.naturalLanguage * 0.15 + s.structuredInfo * 0.15) : ℤ) : ℚ)

/-- The demonstration product for the boundary counterexample. -/
def c8Product : ProductContent := ⟨"Widget", "d", [], "v", "pt", []⟩

/-- A state whose standard quota window for shop1 is exhausted. -/
def c8StExhausted : OrchState :=
  ⟨⟨[("shop1", ⟨50, 9999999999⟩)], 50, 3600000⟩, ⟨[], 5, 3600000⟩, []⟩

/-- A state with untouched quota windows. -/
def c8StFresh : OrchState := ⟨⟨[], 50, 3600000⟩, ⟨[], 5, 3600000⟩, []⟩

/-- An upstream oracle that fails every attempt with an HTTP 429 rate-limit
error. -/
def c8Oracle429 : Nat → UpstreamAttempt :=
  fun _ => ⟨0, .error ⟨"Rate limit reached for requests", some 429, none⟩⟩

/-- C1: the quota tracker is a fixed-window counter. -/
theorem quota_fixed_window_correct :
    (∀ (rl : RateLimiter) (id : String) (now : Nat),
      mapGet rl.limits id = none →
        rl.isAllowed id now = (true, { rl with
          limits := mapSet rl.limits id ⟨1, now + rl.windowMs⟩ })) ∧
    (∀ (rl : RateLimiter) (id : String) (now : Nat) (entry : RateLimitEntry),
      mapGet rl.limits id = some entry → now ≥ entry.resetTime →
        rl.isAllowed id now = (true, { rl with
          limits := mapSet rl.limits id ⟨1, now + rl.windowMs⟩ })) ∧
    (∀ (rl : RateLimiter) (id : String) (now : Nat) (entry : RateLimitEntry),
      mapGet rl.limits id = some entry → now < entry.resetTime →
        ((rl.isAllowed id now).1 = true ↔ entry.count < rl.maxRequests) ∧
        (entry.count < rl.maxRequests →
          rl.isAllowed id now = (true, { rl with
            limits := mapSet rl.limits id ⟨entry.count + 1, entry.resetTime⟩ })) ∧
        (¬ entry.count < rl.maxRequests → rl.isAllowed id now = (false, rl))) ∧
    ((runIsAllowed ⟨[], 5, 3600000⟩ "shop" [0, 0, 0, 0, 0, 0]).1 =
        [true, true, true, true, true, false] ∧
      (runIsAllowed ⟨[], 5, 3600000⟩ "shop" [0, 0, 0, 0, 0, 0]).2.isAllowed
          "shop" 3600000 =
        (true, ⟨[("shop", ⟨1, 7200000⟩)], 5, 3600000⟩)) := by
  refine ⟨?_, ?_, ?_, ?_⟩
  · intro rl id now h
    simp [RateLimiter.isAllowed, h]
  · intro rl id now entry h hge
    simp [RateLimiter.isAllowed, h, hge]
  · intro rl id now entry h hlt
    have hnge : ¬ now ≥ entry.resetTime := Nat.not_le.mpr hlt
    refine ⟨?_, ?_, ?_⟩
    · by_cases hc : entry.count < rl.maxRequests
      · have hnc : ¬ entry.count ≥ rl.maxRequests := Nat.not_le.mpr hc
        simp [RateLimiter.isAllowed, h, hnge, hnc, hc]
      · have hc' : entry.count ≥ rl.maxRequests := Nat.le_of_not_lt hc
        simp [RateLimiter.isAllowed, h, hnge, hc', hc]
    · intro hc
      have hnc : ¬ entry.count ≥ rl.maxRequests := Nat.not_le.mpr hc
      simp [RateLimiter.isAllowed, h, hnge, hnc]
    · intro hc
      have hc' : entry.count ≥ rl.maxRequests := Nat.le_of_not_lt hc
      simp [RateLimiter.isAllowed, h, hnge, hc']
  · constructor
    · decide
    · decide

theorem quota_fixed_window_witness :
    RateLimiter.isAllowed ⟨[], 5, 1000⟩ "a" 0 =
      (true, ⟨[("a", ⟨1, 1000⟩)], 5, 1000⟩) ∧
    (RateLimiter.isAllowed ⟨[("a", ⟨2, 500⟩)], 5, 1000⟩ "a" 100).1 = true :=
  ⟨quota_fixed_window_correct.1 ⟨[], 5, 1000⟩ "a" 0 rfl,
   (quota_fixed_window_correct.2.2.1 ⟨[("a", ⟨2, 500⟩)], 5, 1000⟩ "a" 100
      ⟨2, 500⟩ rfl (by decide)).1.mpr (by decide)⟩

/-- Helper: a successful getCachedAnalysis returns the stored analysis of a
live entry and leaves the cache unchanged. -/
theorem getCachedAnalysis_some {cache : Cache} {k : CanonicalContent}
    {now : Nat} {a : ProductAnalysis} {c' : Cache}
    (h : getCachedAnalysis cache k now = (some a, c')) :
    ∃ e, cacheGet cache k = some e ∧ now - e.timestamp ≤ CACHE_EXPIRATION_MS ∧
      a = e.analysis ∧ c' = cache := by
  unfold getCachedAnalysis at h
  cases hget : cacheGet cache k with
  | none => rw [hget] at h; simp at h
  | some e =>
      rw [hget] at h
      dsimp only at h
      by_cases hexp : now - e.timestamp > CACHE_EXPIRATION_MS
      · rw [if_pos hexp] at h; simp at h
      · rw [if_neg hexp] at h
        obtain ⟨h1, h2⟩ := Prod.mk.injEq _ _ _ _ ▸ h
        refine ⟨e, rfl, Nat.le_of_not_lt hexp, ?_, h2.symm⟩
        exact (Option.some.injEq _ _ ▸ h1).symm

/-- C2: get never serves an entry older than the 24-hour TTL. -/
theorem cache_never_serves_expired :
    (∀ (cache : Cache) (k : CanonicalContent) (now : Nat)
        (a : ProductAnalysis) (c' : Cache),
      getCachedAnalysis cache k now = (some a, c') →
        ∃ e, cacheGet cache k = some e ∧
          now - e.timestamp ≤ CACHE_EXPIRATION_MS ∧ a = e.analysis) ∧
    (∀ (cache : Cache) (k : CanonicalContent) (now : Nat)
        (e : CacheEntry),
      cacheGet cache k = some e → now - e.timestamp > CACHE_EXPIRATION_MS →
        getCachedAnalysis cache k now = (none, cacheDelete cache k)) ∧
    (∀ (k : CanonicalContent) (a : ProductAnalysis),
      (getCachedAnalysis (setCachedAnalysis [] k a 0) k 86340000).1 = some a ∧
      getCachedAnalysis (setCachedAnalysis [] k a 0) k 86460000 =
        (none, [])) := by
  refine ⟨?_, ?_, ?_⟩
  · intro cache k now a c' h
    obtain ⟨e, h1, h2, h3, _⟩ := getCachedAnalysis_some h
    exact ⟨e, h1, h2, h3⟩
  · intro cache k now e hget hexp
    unfold getCachedAnalysis
    rw [hget]
    dsimp only
    rw [if_pos hexp]
  · intro k a
    constructor
    · show (getCachedAnalysis [(k, ⟨a, 0, k⟩)] k 86340000).1 = some a
      unfold getCachedAnalysis
      simp [cacheGet, CACHE_EXPIRATION_MS]
    · show getCachedAnalysis [(k, ⟨a, 0, k⟩)] k 86460000 = (none, [])
      unfold getCachedAnalysis
      simp [cacheGet, CACHE_EXPIRATION_MS, cacheDelete]

theorem cache_never_serves_expired_witness :
    getCachedAnalysis
        [(⟨"t", "", [], "", "", [], none⟩,
          ⟨createFallbackAnalysis "t", 0, ⟨"t", "", [], "", "", [], none⟩⟩)]
        ⟨"t", "", [], "", "", [], none⟩ 86460000 =
      (none, []) :=
  cache_never_serves_expired.2.1
    [(⟨"t", "", [], "", "", [], none⟩,
      ⟨createFallbackAnalysis "t", 0, ⟨"t", "", [], "", "", [], none⟩⟩)]
    ⟨"t", "", [], "", "", [], none⟩ 86460000
    ⟨createFallbackAnalysis "t", 0, ⟨"t", "", [], "", "", [], none⟩⟩
    (by simp [cacheGet]) (by decide)

/-- Helper: sorting with a decidable linear order sends permuted lists of
strings to the same sorted list. -/
theorem sortTags_perm_eq {l1 l2 : List String} (h : l1.Perm l2) :
    sortTags l1 = sortTags l2 := by
  unfold sortTags
  exact List.eq_of_perm_of_sorted
    (((List.perm_insertionSort _ l1).trans h).trans
      (List.perm_insertionSort _ l2).symm)
    (List.sorted_insertionSort _ l1) (List.sorted_insertionSort _ l2)

/-- Helper: a key-sorted metafield list with pairwise distinct keys is
strictly sorted by key. -/
theorem sorted_strict_of_nodup_keys {l : List Metafield}
    (hs : List.Sorted mfLe l) (hnd : (l.map Metafield.key).Nodup) :
    List.Sorted mfLt l := by
  have hne : l.Pairwise (fun a b => a.key ≠ b.key) :=
    (List.pairwise_map.mp hnd)
  refine (hs.and hne).imp (fun h => ?_)
  exact lt_of_le_of_ne h.1 (fun hd => h.2 (String.ext hd))

/-- Helper: stable key-sorting of permuted metafield lists with unique keys
agrees. -/
theorem sortMetafields_perm_eq {l1 l2 : List Metafield} (h : l1.Perm l2)
    (hnd : (l1.map Metafield.key).Nodup) :
    sortMetafields l1 = sortMetafields l2 := by
  unfold sortMetafields
  have hperm : (List.insertionSort mfLe l1).Perm (List.insertionSort mfLe l2) :=
    ((List.perm_insertionSort _ l1).trans h).trans
      (List.perm_insertionSort _ l2).symm
  have hnd1 : ((List.insertionSort mfLe l1).map Metafield.key).Nodup :=
    (((List.perm_insertionSort mfLe l1).map Metafield.key).nodup_iff).mpr hnd
  have hnd2 : ((List.insertionSort mfLe l2).map Metafield.key).Nodup := by
    refine (((List.perm_insertionSort mfLe l2).map Metafield.key).nodup_iff).mpr ?_
    exact ((h.map Metafield.key).nodup_iff).mp hnd
  exact List.eq_of_perm_of_sorted hperm
    (sorted_strict_of_nodup_keys (List.sorted_insertionSort _ l1) hnd1)
    (sorted_strict_of_nodup_keys (List.sorted_insertionSort _ l2) hnd2)

/-- C4: the fingerprint is invariant under reordering of tags and of the
metafield list (the data model keeps metafield keys unique). -/
theorem fingerprint_order_invariant :
    ∀ p1 p2 : ProductContentWithReviews,
      p1.title = p2.title → p1.description = p2.description →
      p1.tags.Perm p2.tags → p1.vendor = p2.vendor →
      p1.productType = p2.productType → p1.metafields.Perm p2.metafields →
      (p1.metafields.map Metafield.key).Nodup →
      p1.reviewData = p2.reviewData →
      (generateContentHash p1).1 = (generateContentHash p2).1 := by
  intro p1 p2 ht hd htags hv hpt hmf hnd hrd
  unfold generateContentHash
  dsimp only
  rw [ht, hd, hv, hpt, hrd, sortTags_perm_eq htags,
    sortMetafields_perm_eq hmf hnd]

theorem fingerprint_order_invariant_witness :
    (generateContentHash
        ⟨"T", "D", ["b", "a"], "V", "P", [⟨"y", "1"⟩, ⟨"x", "2"⟩], none⟩).1 =
      (generateContentHash
        ⟨"T", "D", ["a", "b"], "V", "P", [⟨"x", "2"⟩, ⟨"y", "1"⟩], none⟩).1 :=
  fingerprint_order_invariant
    ⟨"T", "D", ["b", "a"], "V", "P", [⟨"y", "1"⟩, ⟨"x", "2"⟩], none⟩
    ⟨"T", "D", ["a", "b"], "V", "P", [⟨"x", "2"⟩, ⟨"y", "1"⟩], none⟩
    rfl rfl (by decide) rfl rfl (by decide) (by decide) rfl

/-- C9: evaluating the fingerprinter at a two-tag record shows the in-place
sorts leave the record with reordered tags, contradicting the no-side-effect
contract. -/
theorem fingerprint_mutates_input :
    (generateContentHash ⟨"T", "", ["b", "a"], "V", "P", [], none⟩).2.tags =
        ["a", "b"] ∧
      (generateContentHash ⟨"T", "", ["b", "a"], "V", "P", [], none⟩).2 ≠
        ⟨"T", "", ["b", "a"], "V", "P", [], none⟩ := by
  constructor
  · decide
  · decide

/-- Helper: the retry loop consumes at most fuel further attempts. -/
theorem retryAux_attempts_le (oracle : Nat → UpstreamAttempt)
    (maxRetries : Nat) :
    ∀ (fuel attempt : Nat) (lastError : Option JsError) (delays : List Nat)
      (used : Nat),
      (callOpenAIWithRetryAux oracle maxRetries fuel attempt lastError delays
          used).attemptsUsed ≤ used + fuel := by
  intro fuel
  induction fuel with
  | zero =>
      intro attempt lastError delays used
      simp [callOpenAIWithRetryAux]
  | succ n ih =>
      intro attempt lastError delays used
      unfold callOpenAIWithRetryAux
      cases heff : effectiveOutcome (oracle attempt) with
      | ok v => dsimp only; omega
      | error e =>
          dsimp only
          by_cases hclient : (e.status == some 400 || e.status == some 401 ||
              e.status == some 403) = true
          · rw [if_pos hclient]; dsimp only; omega
          · rw [if_neg hclient]
            by_cases hretry : (decide (attempt < maxRetries) &&
                (isRateLimitError e || isNetworkError e)) = true
            · rw [if_pos hretry]
              have := ih (attempt + 1) (some e)
                (delays ++ [2 ^ attempt * 1000]) (used + 1)
              omega
            · rw [if_neg hretry]; dsimp only; omega

/-- C3: the retry loop makes at most 3 attempts, races each against the
30-second timeout, backs off 2 ^ attempt seconds on retryable failures,
aborts at once on HTTP 400/401/403, and after exhausting its attempts fails
carrying the last observed error. -/
theorem retry_policy_correct :
    (∀ oracle : Nat → UpstreamAttempt,
      (callOpenAIWithRetry oracle 3).attemptsUsed ≤ 3) ∧
    (∀ a : UpstreamAttempt, a.tookMs ≥ 30000 →
      effectiveOutcome a = .error timeoutError ∧
        isNetworkError timeoutError = true ∧
        isRateLimitError timeoutError = false ∧
        isClientStatus timeoutError = false) ∧
    (∀ (oracle : Nat → UpstreamAttempt) (e : JsError) (v : ResponseVal),
      effectiveOutcome (oracle 1) = .error e →
      isClientStatus e = false →
      (isRateLimitError e || isNetworkError e) = true →
      effectiveOutcome (oracle 2) = .ok v →
      callOpenAIWithRetry oracle 3 = ⟨.ok v, [2000], 2⟩) ∧
    (∀ (oracle : Nat → UpstreamAttempt) (e : JsError) (s : Nat),
      effectiveOutcome (oracle 1) = .error e → e.status = some s →
      (s = 400 ∨ s = 401 ∨ s = 403) →
      callOpenAIWithRetry oracle 3 =
        ⟨.error (mkOpenAIError ("API Error (" ++ toString s ++ ")")), [], 1⟩) ∧
    (∀ (oracle : Nat → UpstreamAttempt) (e1 e2 e3 : JsError),
      effectiveOutcome (oracle 1) = .error e1 →
      effectiveOutcome (oracle 2) = .error e2 →
      effectiveOutcome (oracle 3) = .error e3 →
      isClientStatus e1 = false → (isRateLimitError e1 || isNetworkError e1) = true →
      isClientStatus e2 = false → (isRateLimitError e2 || isNetworkError e2) = true →
      isClientStatus e3 = false → e3.message ≠ "" →
      callOpenAIWithRetry oracle 3 =
        ⟨.error (mkOpenAIError e3.message), [2000, 4000], 3⟩) := by
  refine ⟨?_, ?_, ?_, ?_, ?_⟩
  · intro oracle
    simpa using retryAux_attempts_le oracle 3 3 1 none [] 0
  · intro a h
    refine ⟨?_, by decide, by decide, by decide⟩
    unfold effectiveOutcome
    rw [if_pos h]
  · intro oracle e v h1 hclient hretry h2
    unfold callOpenAIWithRetry
    unfold callOpenAIWithRetryAux
    rw [h1]
    dsimp only
    rw [if_neg (by simp [isClientStatus] at hclient; simp [hclient])]
    rw [if_pos (by simp [hretry])]
    unfold callOpenAIWithRetryAux
    rw [h2]
    dsimp only
    norm_num
  · intro oracle e s h1 hstatus hs
    unfold callOpenAIWithRetry
    unfold callOpenAIWithRetryAux
    rw [h1]
    dsimp only
    rw [if_pos (by rcases hs with h | h | h <;> simp [hstatus, h])]
    rw [hstatus]
    rfl
  · intro oracle e1 e2 e3 h1 h2 h3 hc1 hr1 hc2 hr2 hc3 hmsg
    unfold callOpenAIWithRetry
    unfold callOpenAIWithRetryAux
    rw [h1]
    dsimp only
    rw [if_neg (by simp [isClientStatus] at hc1; simp [hc1])]
    rw [if_pos (by simp [hr1])]
    unfold callOpenAIWithRetryAux
    rw [h2]
    dsimp only
    rw [if_neg (by simp [isClientStatus] at hc2; simp [hc2])]
    rw [if_pos (by simp [hr2])]
    unfold callOpenAIWithRetryAux
    rw [h3]
    dsimp only
    rw [if_neg (by simp [isClientStatus] at hc3; simp [hc3])]
    rw [if_neg (by simp)]
    rw [if_neg hmsg]
    norm_num

theorem retry_policy_witness :
    callOpenAIWithRetry
        (fun n => if n = 1 then ⟨40000, .ok ⟨none⟩⟩
          else ⟨0, .ok ⟨none⟩⟩) 3 =
      ⟨.ok ⟨none⟩, [2000], 2⟩ :=
  retry_policy_correct.2.2.1
    (fun n => if n = 1 then ⟨40000, .ok ⟨none⟩⟩ else ⟨0, .ok ⟨none⟩⟩)
    timeoutError ⟨none⟩ (by decide) (by decide) (by decide) (by decide)

/-- Helper: Map.set grows the map by at most one entry. -/
theorem cacheSet_length_le (c : Cache) (k : CanonicalContent)
    (v : CacheEntry) : (cacheSet c k v).length ≤ c.length + 1 := by
  induction c with
  | nil => simp [cacheSet]
  | cons p rest ih =>
      obtain ⟨k0, w⟩ := p
      by_cases hk : k0 = k
      · simp [cacheSet, hk]
      · simp only [cacheSet, if_neg hk, List.length_cons]
        omega

/-- Helper: a member's key is found by Map.get. -/
theorem cacheGet_isSome_of_mem {c : Cache} {p : CanonicalContent × CacheEntry}
    (h : p ∈ c) : ∃ w, cacheGet c p.1 = some w := by
  induction c with
  | nil => cases h
  | cons q rest ih =>
      obtain ⟨k0, w0⟩ := q
      rcases List.mem_cons.mp h with heq | hmem
      · subst heq
        exact ⟨w0, by simp [cacheGet]⟩
      · by_cases hk : k0 = p.1
        · exact ⟨w0, by simp [cacheGet, hk]⟩
        · obtain ⟨w, hw⟩ := ih hmem
          exact ⟨w, by simp [cacheGet, hk, hw]⟩

/-- Helper: deleting a present key removes exactly one entry. -/
theorem cacheDelete_length_of_get {c : Cache} {k : CanonicalContent}
    (h : ∃ w, cacheGet c k = some w) :
    (cacheDelete c k).length + 1 = c.length := by
  induction c with
  | nil =>
      obtain ⟨w, hw⟩ := h
      simp [cacheGet] at hw
  | cons q rest ih =>
      obtain ⟨k0, w0⟩ := q
      by_cases hk : k0 = k
      · simp [cacheDelete, hk]
      · obtain ⟨w, hw⟩ := h
        simp only [cacheGet, if_neg hk] at hw
        simp only [cacheDelete, if_neg hk, List.length_cons]
        rw [ih ⟨w, hw⟩]

/-- Helper: a key absent from all entries is not found. -/
theorem cacheGet_none {c : Cache} {k : CanonicalContent}
    (h : ∀ p ∈ c, p.1 ≠ k) : cacheGet c k = none := by
  induction c with
  | nil => rfl
  | cons q rest ih =>
      obtain ⟨k0, w0⟩ := q
      have hk : k0 ≠ k := h (k0, w0) (List.mem_cons_self _ _)
      simp only [cacheGet, if_neg hk]
      exact ih (fun p hp => h p (List.mem_cons_of_mem _ hp))

/-- Helper: Map.set with a fresh key appends. -/
theorem cacheSet_fresh {c : Cache} {k : CanonicalContent} {v : CacheEntry}
    (h : cacheGet c k = none) : cacheSet c k v = c ++ [(k, v)] := by
  induction c with
  | nil => rfl
  | cons q rest ih =>
      obtain ⟨k0, w0⟩ := q
      by_cases hk : k0 = k
      · simp [cacheGet, hk] at h
      · simp only [cacheGet, if_neg hk] at h
        simp [cacheSet, hk, ih h]

/-- Helper: the head of the timestamp-sorted entry list is a member of
minimal timestamp. -/
theorem evicted_is_oldest {c : Cache} {p : CanonicalContent × CacheEntry}
    (hh : (List.insertionSort entryLe c).head? = some p) :
    p ∈ c ∧ ∀ q ∈ c, p.2.timestamp ≤ q.2.timestamp := by
  have hs := List.sorted_insertionSort entryLe c
  have hperm := List.perm_insertionSort entryLe c
  cases hsort : List.insertionSort entryLe c with
  | nil => rw [hsort] at hh; simp at hh
  | cons hd tl =>
      rw [hsort] at hh
      simp only [List.head?] at hh
      obtain rfl : hd = p := by injection hh
      rw [hsort] at hs hperm
      constructor
      · exact hperm.subset (List.mem_cons_self _ _)
      · intro q hq
        rcases List.mem_cons.mp (hperm.symm.subset hq) with heq | hmem
        · rw [heq]
        · exact List.rel_of_sorted_cons hs q hmem

/-- Helper: an insert into a cache within capacity stays within capacity. -/
theorem setCachedAnalysis_bound (c : Cache) (k : CanonicalContent)
    (a : ProductAnalysis) (now : Nat) (h : c.length ≤ 1000) :
    (setCachedAnalysis c k a now).length ≤ 1000 := by
  unfold setCachedAnalysis
  have hlen := cacheSet_length_le c k ⟨a, now, k⟩
  by_cases hgt : (cacheSet c k ⟨a, now, k⟩).length > 1000
  · rw [if_pos hgt]
    cases hh : (List.insertionSort entryLe (cacheSet c k ⟨a, now, k⟩)).head? with
    | none =>
        exfalso
        have hnil := List.head?_eq_none_iff.mp hh
        have := (List.perm_insertionSort entryLe
          (cacheSet c k ⟨a, now, k⟩)).length_eq
        rw [hnil] at this
        simp at this
        omega
    | some p =>
        dsimp only
        have hmem := (evicted_is_oldest hh).1
        have := cacheDelete_length_of_get (cacheGet_isSome_of_mem hmem)
        omega
  · rw [if_neg hgt]
    omega

theorem demoKey_inj {i j : Nat} (h : demoKey i = demoKey j) : i = j := by
  have h1 : List.replicate i 'a' = List.replicate j 'a' :=
    congrArg (fun c => c.title.data) h
  simpa using congrArg List.length h1

theorem demoCache_succ (n : Nat) :
    demoCache (n + 1) =
      setCachedAnalysis (demoCache n) (demoKey n) demoAnalysis n := by
  unfold demoCache
  rw [List.range_succ, List.foldl_append]
  rfl

theorem demoFresh (n : Nat) :
    cacheGet ((List.range n).map demoPair) (demoKey n) = none := by
  apply cacheGet_none
  intro p hp
  obtain ⟨i, hi, rfl⟩ := List.mem_map.mp hp
  have hilt : i < n := List.mem_range.mp hi
  intro hcon
  have := demoKey_inj hcon
  omega

theorem demoCache_eq : ∀ n, n ≤ 1000 →
    demoCache n = (List.range n).map demoPair := by
  intro n
  induction n with
  | zero => intro _; rfl
  | succ m ih =>
      intro hle
      rw [demoCache_succ, ih (by omega)]
      unfold setCachedAnalysis
      rw [cacheSet_fresh (demoFresh m)]
      rw [if_neg (by simp; omega)]
      rw [List.range_succ, List.map_append]
      rfl

set_option maxRecDepth 8000 in
theorem demoCache_final :
    demoCache 1001 = (List.range 1000).map (fun i => demoPair (i + 1)) := by
  rw [show (1001 : Nat) = 1000 + 1 from rfl, demoCache_succ,
    demoCache_eq 1000 (by omega)]
  unfold setCachedAnalysis
  rw [cacheSet_fresh (demoFresh 1000)]
  have heq : (List.range 1000).map demoPair ++
      [(demoKey 1000, ⟨demoAnalysis, 1000, demoKey 1000⟩)] =
      (List.range 1001).map demoPair := by
    rw [show (1001 : Nat) = 1000 + 1 from rfl, List.range_succ,
      List.map_append]
    rfl
  rw [heq]
  rw [if_pos (by simp)]
  have hsorted : List.Sorted entryLe ((List.range 1001).map demoPair) := by
    rw [List.Sorted, List.pairwise_map]
    exact (List.pairwise_lt_range 1001).imp (fun h => Nat.le_of_lt h)
  rw [hsorted.insertionSort_eq]
  rw [List.range_succ_eq_map, List.map_cons]
  dsimp only [List.head?]
  show cacheDelete ((demoKey 0, demoEntry 0) :: _) (demoKey 0) = _
  rw [cacheDelete, if_pos rfl]
  rw [List.map_map]
  rfl

/-- C5: the cache never exceeds 1000 live entries after a completed insert;
an overflowing insert evicts a minimal-timestamp entry; 1001 distinct
inserts leave 1000 entries with the first-inserted key evicted. -/
theorem cache_capacity_bound :
    (∀ (c : Cache) (k : CanonicalContent) (a : ProductAnalysis) (now : Nat),
      c.length ≤ 1000 → (setCachedAnalysis c k a now).length ≤ 1000) ∧
    (∀ (c : Cache) (k : CanonicalContent) (a : ProductAnalysis) (now : Nat),
      (cacheSet c k ⟨a, now, k⟩).length > 1000 →
        ∃ p, p ∈ cacheSet c k ⟨a, now, k⟩ ∧
          (∀ q ∈ cacheSet c k ⟨a, now, k⟩, p.2.timestamp ≤ q.2.timestamp) ∧
          setCachedAnalysis c k a now =
            cacheDelete (cacheSet c k ⟨a, now, k⟩) p.1) ∧
    ((demoCache 1001).length = 1000 ∧
      cacheGet (demoCache 1001) (demoKey 0) = none) := by
  refine ⟨setCachedAnalysis_bound, ?_, ?_, ?_⟩
  · intro c k a now hgt
    cases hh : (List.insertionSort entryLe (cacheSet c k ⟨a, now, k⟩)).head? with
    | none =>
        exfalso
        have hnil := List.head?_eq_none_iff.mp hh
        have := (List.perm_insertionSort entryLe
          (cacheSet c k ⟨a, now, k⟩)).length_eq
        rw [hnil] at this
        simp at this
        omega
    | some p =>
        obtain ⟨hmem, hmin⟩ := evicted_is_oldest hh
        refine ⟨p, hmem, hmin, ?_⟩
        unfold setCachedAnalysis
        rw [if_pos hgt, hh]
  · rw [demoCache_final]
    simp
  · rw [demoCache_final]
    apply cacheGet_none
    intro p hp
    obtain ⟨i, hi, rfl⟩ := List.mem_map.mp hp
    intro hcon
    have := demoKey_inj hcon
    omega

theorem cache_capacity_bound_witness :
    (setCachedAnalysis [] (demoKey 0) demoAnalysis 0).length ≤ 1000 :=
  cache_capacity_bound.1 [] (demoKey 0) demoAnalysis 0 (by simp)

/-- Helper: the transformer establishes the composite-score invariant. -/
theorem scoresInvariant_transform (resp : OpenAIResponse)
    (rd : Option ReviewData) :
    scoresInvariant (transformOpenAIResponse resp rd).scores := rfl

/-- Helper: the fallback analysis satisfies the composite-score invariant. -/
theorem scoresInvariant_fallback (t : String) :
    scoresInvariant (createFallbackAnalysis t).scores := by
  unfold scoresInvariant createFallbackAnalysis roundHalfUp
  dsimp only
  have h : ((0 : ℚ) * 0.25 + 0 * 0.25 + 0 * 0.20 + 0 * 0.15 + 0 * 0.15) +
      1 / 2 = 1 / 2 := by norm_num
  rw [h]
  rw [show ⌊(1 / 2 : ℚ)⌋ = 0 from by
    rw [Int.floor_eq_zero_iff]
    constructor <;> norm_num]
  norm_num

/-- Helper: every branch of the post-quota pipeline yields an analysis
satisfying the composite-score invariant, provided every cached analysis
does. -/
theorem scoresInvariant_afterQuota (product : ProductContent)
    (reviewOracle : Option ReviewData)
    (upstreamOracle : Nat → UpstreamAttempt) (st : OrchState) (now : Nat)
    (hcache : ∀ k e, cacheGet st.cache k = some e →
      scoresInvariant e.analysis.scores) :
    scoresInvariant (analyzeAfterQuota product reviewOracle upstreamOracle
      st now).result.analysis.scores := by
  unfold analyzeAfterQuota
  dsimp only
  split
  · next cachedAnalysis cache' heq =>
      obtain ⟨e, hget, _, ha, _⟩ := getCachedAnalysis_some heq
      dsimp only
      rw [ha]
      exact hcache _ e hget
  · next cache' heq =>
      split
      · next e _ => exact scoresInvariant_fallback product.title
      · next resp _ =>
          cases hc : resp.content with
          | none => exact scoresInvariant_fallback product.title
          | some uc =>
              cases uc with
              | malformed msg => exact scoresInvariant_fallback product.title
              | parsed openaiResponse =>
                  exact scoresInvariant_transform openaiResponse reviewOracle

/-- C6: every analysis the system produces — fresh from the transformer,
served from a cache whose entries were so produced, or from the fallback
policy — has composite score equal to the rounded weighted sum of the five
sub-scores. -/
theorem composite_score_invariant :
    (∀ (resp : OpenAIResponse) (rd : Option ReviewData),
      scoresInvariant (transformOpenAIResponse resp rd).scores) ∧
    (∀ t : String, scoresInvariant (createFallbackAnalysis t).scores) ∧
    (∀ (product : ProductContent) (session : Option Session)
        (reviewOracle : Option ReviewData)
        (upstreamOracle : Nat → UpstreamAttempt) (st : OrchState) (now : Nat),
      (∀ k e, cacheGet st.cache k = some e →
        scoresInvariant e.analysis.scores) →
      scoresInvariant (analyzeLLMDiscoverability product session reviewOracle
        upstreamOracle st now).result.analysis.scores) := by
  refine ⟨scoresInvariant_transform, scoresInvariant_fallback, ?_⟩
  intro product session reviewOracle upstreamOracle st now hcache
  unfold analyzeLLMDiscoverability
  split
  · next e _ => exact scoresInvariant_fallback product.title
  · next _ =>
      split
      · next s =>
          dsimp only
          split
          · exact scoresInvariant_afterQuota product reviewOracle
              upstreamOracle _ now hcache
          · exact scoresInvariant_fallback product.title
      · exact scoresInvariant_afterQuota product reviewOracle
          upstreamOracle st now hcache

theorem composite_score_invariant_witness :
    scoresInvariant (analyzeLLMDiscoverability
      ⟨"Widget", "d", [], "v", "pt", []⟩ none none
      (fun _ => ⟨0, .ok ⟨none⟩⟩) ⟨⟨[], 50, 3600000⟩, ⟨[], 5, 3600000⟩, []⟩
      0).result.analysis.scores :=
  composite_score_invariant.2.2 ⟨"Widget", "d", [], "v", "pt", []⟩ none none
    (fun _ => ⟨0, .ok ⟨none⟩⟩) ⟨⟨[], 50, 3600000⟩, ⟨[], 5, 3600000⟩, []⟩ 0
    (fun k e h => by simp [cacheGet] at h)

/-- Helper: observable facts common to every branch of the post-quota
pipeline: neither limiter is touched, quota is never denied there, a caught
error yields the fallback analysis with rateLimited set by the rate-limit
classifier, and rateLimited can only come from such a caught error. -/
theorem afterQuota_cases (product : ProductContent)
    (reviewOracle : Option ReviewData)
    (upstreamOracle : Nat → UpstreamAttempt) (st : OrchState) (now : Nat) :
    (analyzeAfterQuota product reviewOracle upstreamOracle st
        now).quotaDenied = false ∧
    (analyzeAfterQuota product reviewOracle upstreamOracle st
        now).state.openaiLimiter = st.openaiLimiter ∧
    (analyzeAfterQuota product reviewOracle upstreamOracle st
        now).state.bulkLimiter = st.bulkLimiter ∧
    (∀ e, (analyzeAfterQuota product reviewOracle upstreamOracle st
        now).caughtError = some e →
      (analyzeAfterQuota product reviewOracle upstreamOracle st
          now).result.analysis = createFallbackAnalysis product.title ∧
      (analyzeAfterQuota product reviewOracle upstreamOracle st
          now).result.rateLimited = isRateLimitError e) ∧
    ((analyzeAfterQuota product reviewOracle upstreamOracle st
        now).result.rateLimited = true →
      ∃ e, (analyzeAfterQuota product reviewOracle upstreamOracle st
          now).caughtError = some e ∧ isRateLimitError e = true) := by
  unfold analyzeAfterQuota
  dsimp only
  split
  · next cachedAnalysis cache' heq =>
      refine ⟨rfl, rfl, rfl, ?_, ?_⟩
      · intro e he; simp at he
      · intro hrl; simp at hrl
  · next cache' heq =>
      split
      · next e _ =>
          refine ⟨rfl, rfl, rfl, ?_, ?_⟩
          · intro e' he'
            simp only [catchResult] at he' ⊢
            obtain rfl : e = e' := by injection he'
            exact ⟨rfl, rfl⟩
          · intro hrl
            simp only [catchResult] at hrl ⊢
            exact ⟨e, rfl, hrl⟩
      · next resp _ =>
          cases hc : resp.content with
          | none =>
              refine ⟨rfl, rfl, rfl, ?_, ?_⟩
              · intro e' he'
                simp only [catchResult] at he' ⊢
                obtain rfl : mkOpenAIError "Empty response received" = e' := by
                  injection he'
                exact ⟨rfl, rfl⟩
              · intro hrl
                simp only [catchResult] at hrl ⊢
                exact ⟨mkOpenAIError "Empty response received", rfl, hrl⟩
          | some uc =>
              cases uc with
              | malformed msg =>
                  refine ⟨rfl, rfl, rfl, ?_, ?_⟩
                  · intro e' he'
                    simp only [catchResult] at he' ⊢
                    obtain rfl : jsonParseError msg = e' := by injection he'
                    exact ⟨rfl, rfl⟩
                  · intro hrl
                    simp only [catchResult] at hrl ⊢
                    exact ⟨jsonParseError msg, rfl, hrl⟩
              | parsed openaiResponse =>
                  refine ⟨rfl, rfl, rfl, ?_, ?_⟩
                  · intro e' he'; simp at he'
                  · intro hrl; simp at hrl

/-- C7: a quota-denied request returns the structurally complete fallback
with rateLimited = true and never consults the upstream oracle. -/
theorem quota_denial_no_upstream :
    ∀ (product : ProductContent) (s : Session)
      (reviewOracle : Option ReviewData)
      (upstreamOracle : Nat → UpstreamAttempt) (st : OrchState) (now : Nat),
      validateProductData product = .ok () →
      (st.openaiLimiter.isAllowed (getRateLimitIdentifier s) now).1 = false →
      analyzeLLMDiscoverability product (some s) reviewOracle upstreamOracle
          st now =
        { result :=
            { analysis := createFallbackAnalysis product.title,
              cacheStatus := .fresh, rateLimited := true },
          state := { st with openaiLimiter :=
            (st.openaiLimiter.isAllowed (getRateLimitIdentifier s) now).2 },
          upstreamAttempts := 0, quotaDenied := true, caughtError := none } := by
  intro product s reviewOracle upstreamOracle st now hval hdeny
  unfold analyzeLLMDiscoverability
  rw [hval]
  dsimp only
  unfold checkRateLimit
  dsimp only
  rw [hdeny]
  rfl

theorem quota_denial_no_upstream_witness :
    analyzeLLMDiscoverability ⟨"Widget", "d", [], "v", "pt", []⟩
        (some ⟨some "shop1"⟩) none (fun _ => ⟨0, .ok ⟨none⟩⟩)
        ⟨⟨[("shop1", ⟨50, 9999999999⟩)], 50, 3600000⟩, ⟨[], 5, 3600000⟩, []⟩
        0 =
      { result :=
          { analysis := createFallbackAnalysis "Widget",
            cacheStatus := .fresh, rateLimited := true },
        state := ⟨⟨[("shop1", ⟨50, 9999999999⟩)], 50, 3600000⟩,
          ⟨[], 5, 3600000⟩, []⟩,
        upstreamAttempts := 0, quotaDenied := true, caughtError := none } :=
  quota_denial_no_upstream ⟨"Widget", "d", [], "v", "pt", []⟩ ⟨some "shop1"⟩
    none (fun _ => ⟨0, .ok ⟨none⟩⟩)
    ⟨⟨[("shop1", ⟨50, 9999999999⟩)], 50, 3600000⟩, ⟨[], 5, 3600000⟩, []⟩ 0
    (by decide) (by decide)

/-- C10: with no session, neither limiter is consulted or mutated, the
request is never denied locally, and rateLimited = true can only come from a
caught error that the rate-limit classifier accepts, after validation
passed — i.e. from the upstream pipeline, not the local limiters. -/
theorem no_session_no_quota :
    ∀ (product : ProductContent) (reviewOracle : Option ReviewData)
      (upstreamOracle : Nat → UpstreamAttempt) (st : OrchState) (now : Nat),
      (analyzeLLMDiscoverability product none reviewOracle upstreamOracle st
          now).state.openaiLimiter = st.openaiLimiter ∧
      (analyzeLLMDiscoverability product none reviewOracle upstreamOracle st
          now).state.bulkLimiter = st.bulkLimiter ∧
      (analyzeLLMDiscoverability product none reviewOracle upstreamOracle st
          now).quotaDenied = false ∧
      ((analyzeLLMDiscoverability product none reviewOracle upstreamOracle st
          now).result.rateLimited = true →
        validateProductData product = .ok () ∧
        ∃ e, (analyzeLLMDiscoverability product none reviewOracle
            upstreamOracle st now).caughtError = some e ∧
          isRateLimitError e = true) := by
  intro product reviewOracle upstreamOracle st now
  unfold analyzeLLMDiscoverability
  unfold validateProductData
  by_cases ht : product.title = ""
  · rw [if_pos ht]
    dsimp only
    exact ⟨rfl, rfl, rfl, fun hrl => absurd hrl (by decide)⟩
  · rw [if_neg ht]
    by_cases hlen : product.title.length > 255
    · rw [if_pos hlen]
      dsimp only
      exact ⟨rfl, rfl, rfl, fun hrl => absurd hrl (by decide)⟩
    · rw [if_neg hlen]
      dsimp only
      obtain ⟨h1, h2, h3, _, h5⟩ :=
        afterQuota_cases product reviewOracle upstreamOracle st now
      exact ⟨h2, h3, h1, fun hrl =>
        ⟨by simp [validateProductData, ht, hlen], h5 hrl⟩⟩

theorem no_session_no_quota_witness :
    ∃ e, (analyzeLLMDiscoverability ⟨"Widget", "d", [], "v", "pt", []⟩ none
        none (fun _ => ⟨0, .error ⟨"Rate limit reached", some 429, none⟩⟩)
        ⟨⟨[], 50, 3600000⟩, ⟨[], 5, 3600000⟩, []⟩ 0).caughtError = some e ∧
      isRateLimitError e = true :=
  ((no_session_no_quota ⟨"Widget", "d", [], "v", "pt", []⟩ none
      (fun _ => ⟨0, .error ⟨"Rate limit reached", some 429, none⟩⟩)
      ⟨⟨[], 50, 3600000⟩, ⟨[], 5, 3600000⟩, []⟩ 0).2.2.2 (by decide)).2

/-- C8 (amended): the orchestrator converts every caught failure into the
structurally complete fallback result, the quota-denial path likewise, and
rateLimited = true arises exactly from local quota denial or from a caught
error that the rate-limit classifier accepts — so the flag does not separate
QuotaExceeded from upstream rate-limit failures. -/
theorem failure_conversion_boundary :
    ∀ (product : ProductContent) (session : Option Session)
      (reviewOracle : Option ReviewData)
      (upstreamOracle : Nat → UpstreamAttempt) (st : OrchState) (now : Nat),
      (∀ e, (analyzeLLMDiscoverability product session reviewOracle
          upstreamOracle st now).caughtError = some e →
        (analyzeLLMDiscoverability product session reviewOracle
            upstreamOracle st now).result.analysis =
          createFallbackAnalysis product.title ∧
        (analyzeLLMDiscoverability product session reviewOracle
            upstreamOracle st now).result.rateLimited = isRateLimitError e) ∧
      ((analyzeLLMDiscoverability product session reviewOracle upstreamOracle
          st now).quotaDenied = true →
        (analyzeLLMDiscoverability product session reviewOracle
            upstreamOracle st now).result.analysis =
          createFallbackAnalysis product.title ∧
        (analyzeLLMDiscoverability product session reviewOracle
            upstreamOracle st now).result.rateLimited = true) ∧
      ((analyzeLLMDiscoverability product session reviewOracle upstreamOracle
          st now).result.rateLimited = true →
        (analyzeLLMDiscoverability product session reviewOracle
            upstreamOracle st now).quotaDenied = true ∨
        ∃ e, (analyzeLLMDiscoverability product session reviewOracle
            upstreamOracle st now).caughtError = some e ∧
          isRateLimitError e = true) := by
  intro product session reviewOracle upstreamOracle st now
  unfold analyzeLLMDiscoverability
  split
  · next e _ =>
      refine ⟨?_, ?_, ?_⟩
      · intro e' he'
        obtain rfl : e = e' := by injection he'
        exact ⟨rfl, rfl⟩
      · intro h; simp at h
      · intro hrl
        exact Or.inr ⟨e, rfl, hrl⟩
  · next _ =>
      split
      · next s =>
          dsimp only
          split
          · next hallowed =>
              obtain ⟨h1, _, _, h4, h5⟩ := afterQuota_cases product
                reviewOracle upstreamOracle
                { st with openaiLimiter :=
                  (checkRateLimit st.openaiLimiter
                    (getRateLimitIdentifier s) now).2 } now
              exact ⟨h4, fun h => absurd (h1 ▸ h) (by simp),
                fun hrl => Or.inr (h5 hrl)⟩
          · exact ⟨fun e' he' => by simp at he',
              fun _ => ⟨rfl, rfl⟩, fun _ => Or.inl rfl⟩
      · obtain ⟨h1, _, _, h4, h5⟩ := afterQuota_cases product reviewOracle
          upstreamOracle st now
        exact ⟨h4, fun h => absurd (h1 ▸ h) (by simp),
          fun hrl => Or.inr (h5 hrl)⟩

/-- C8 counterexample: a quota-denied run (session present, window
exhausted, quotaDenied ghost true) and a pure upstream rate-limit run
(no session, quota untouched, the caught error is the wrapped 429) return
identical values, so inspecting the returned value cannot tell QuotaExceeded
apart from an upstream rate-limit failure. -/
theorem failure_boundary_counterexample :
    (analyzeLLMDiscoverability c8Product (some ⟨some "shop1"⟩) none
        c8Oracle429 c8StExhausted 0).result =
      (analyzeLLMDiscoverability c8Product none none c8Oracle429 c8StFresh
        0).result ∧
    (analyzeLLMDiscoverability c8Product (some ⟨some "shop1"⟩) none
        c8Oracle429 c8StExhausted 0).quotaDenied = true ∧
    (analyzeLLMDiscoverability c8Product none none c8Oracle429 c8StFresh
        0).quotaDenied = false ∧
    (analyzeLLMDiscoverability c8Product none none c8Oracle429 c8StFresh
        0).caughtError =
      some (mkOpenAIError "Rate limit reached for requests") ∧
    (analyzeLLMDiscoverability c8Product (some ⟨some "shop1"⟩) none
        c8Oracle429 c8StExhausted 0).result.rateLimited = true := by
  refine ⟨?_, by decide, by decide, by decide, by decide⟩
  decide

theorem failure_conversion_boundary_witness :
    (analyzeLLMDiscoverability c8Product none none c8Oracle429 c8StFresh
        0).quotaDenied = true ∨
    ∃ e, (analyzeLLMDiscoverability c8Product none none c8Oracle429 c8StFresh
        0).caughtError = some e ∧ isRateLimitError e = true :=
  (failure_conversion_boundary c8Product none none c8Oracle429 c8StFresh
    0).2.2 (by decide)
